import Mathlib

/-!
Verification development for the Antrack antenna-control core: a shallow
embedding of the Axis protocol client (src/antrack/core/axis/axis_client.py)
and of the tracking controller (src/antrack/tracking/tracking.py), with
theorems settling the stated properties of the specification.

Python floats are modelled as rationals, byte strings as lists of naturals,
fallible operations as Option-returning functions, and the stateful loop
bodies as explicit state-passing step functions.
-/

namespace Antrack

/-- Connection states of the Axis protocol client (enum ServerStatus). -/
inductive ServerStatus
  | DISCONNECTED
  | CONNECTED
  | CONNECTING
  | DISCONNECTING
  | ERROR
deriving DecidableEq

/-- Command kinds of the wire protocol (enum AxisCommand). -/
inductive AxisCommand
  | MOVE_CW
  | MOVE_CCW
  | MOVE_UP
  | MOVE_DOWN
  | STOP_AZ
  | STOP_EL
  | SPEED_AZ
  | SPEED_EL
  | QUERY_AZ
  | QUERY_EL
  | QUERY_MVT_AZ
  | QUERY_MVT_EL
  | QUERY_SPEED_AZ
  | QUERY_SPEED_EL
  | QUERY_ENDSTOP_AZ
  | QUERY_ENDSTOP_EL
  | QUERY_SIGNAL
  | QUERY_MODBUS_STATUS_AZ
  | QUERY_MODBUS_STATUS_EL
  | QUERY_AXIS_SERVER_VER
  | QUERY_AXIS_DRIVER_VER_AZ
  | QUERY_AXIS_DRIVER_VER_EL
  | CLOCK
  | END
deriving DecidableEq

/-- Numeric wire code of each command kind (the enum values in the source). -/
def AxisCommand.code : AxisCommand → Nat
  | .MOVE_CW => 1
  | .MOVE_CCW => 2
  | .MOVE_UP => 3
  | .MOVE_DOWN => 4
  | .STOP_AZ => 5
  | .STOP_EL => 6
  | .SPEED_AZ => 7
  | .SPEED_EL => 8
  | .QUERY_AZ => 20
  | .QUERY_EL => 21
  | .QUERY_MVT_AZ => 22
  | .QUERY_MVT_EL => 23
  | .QUERY_SPEED_AZ => 24
  | .QUERY_SPEED_EL => 25
  | .QUERY_ENDSTOP_AZ => 26
  | .QUERY_ENDSTOP_EL => 27
  | .QUERY_SIGNAL => 28
  | .QUERY_MODBUS_STATUS_AZ => 29
  | .QUERY_MODBUS_STATUS_EL => 30
  | .QUERY_AXIS_SERVER_VER => 50
  | .QUERY_AXIS_DRIVER_VER_AZ => 51
  | .QUERY_AXIS_DRIVER_VER_EL => 52
  | .CLOCK => 200
  | .END => 255

/-- All command kinds, in declaration order (iteration order of the enum). -/
def allAxisCommands : List AxisCommand :=
  [.MOVE_CW, .MOVE_CCW, .MOVE_UP, .MOVE_DOWN, .STOP_AZ, .STOP_EL,
   .SPEED_AZ, .SPEED_EL, .QUERY_AZ, .QUERY_EL, .QUERY_MVT_AZ, .QUERY_MVT_EL,
   .QUERY_SPEED_AZ, .QUERY_SPEED_EL, .QUERY_ENDSTOP_AZ, .QUERY_ENDSTOP_EL,
   .QUERY_SIGNAL, .QUERY_MODBUS_STATUS_AZ, .QUERY_MODBUS_STATUS_EL,
   .QUERY_AXIS_SERVER_VER, .QUERY_AXIS_DRIVER_VER_AZ, .QUERY_AXIS_DRIVER_VER_EL,
   .CLOCK, .END]

/-- Lookup of a command kind by wire code, as the response decoder does
(first enum member whose value matches, None when unknown). -/
def codeToCommand (n : Nat) : Option AxisCommand :=
  allAxisCommands.find? (fun c => c.code == n)

/-- Clamping of the 16-bit command value performed by send_command
(val below 0 becomes 0, val above 65535 becomes 65535). -/
def clampU16 (v : Int) : Int :=
  if v < 0 then 0 else if 65535 < v then 65535 else v

/-- The outgoing 8-byte frame built by send_command: command code, three
reserved zero bytes, the clamped value as an unsigned little-endian 16-bit
field, two reserved zero bytes (struct.pack of one byte, 3 pad, u16, 2 pad). -/
def packFrame (cmd : AxisCommand) (v : Int) : List Nat :=
  let c := (clampU16 v).toNat
  [cmd.code, 0, 0, 0, c % 256, c / 256, 0, 0]

/-- The unsigned 16-bit value field of an outgoing frame (bytes 4 and 5). -/
def frameValueField (f : List Nat) : Int :=
  ((f.getD 4 0 + 256 * f.getD 5 0 : Nat) : Int)

/-- Decoding of a response payload as _parse_response does: bytes 4 to 7 read
as a signed little-endian 32-bit integer. -/
def parseVal (resp : List Nat) : Int :=
  let u := resp.getD 4 0 + 256 * resp.getD 5 0 + 65536 * resp.getD 6 0
             + 16777216 * resp.getD 7 0
  if u < 2147483648 then (u : Int) else (u : Int) - 4294967296

/-- Full response decoding (_parse_response): a frame shorter than 8 bytes or
with an unknown command code in byte 0 decodes to nothing; otherwise the
command kind and the signed 32-bit payload. -/
def parse_response (resp : List Nat) : Option (AxisCommand × Int) :=
  if resp.length < 8 then none
  else
    match codeToCommand (resp.getD 0 0) with
    | none => none
    | some cmd => some (cmd, parseVal resp)

/-- Result of one send_command call: the value returned to the caller, the
frame written to the socket (none when nothing was written), and the pending
map (the set of command kinds with an outstanding future) afterwards. -/
structure SendOutcome where
  result : Option Int
  written : Option (List Nat)
  pending : List AxisCommand
deriving DecidableEq

/-- One send_command call. Refused (returns no value, writes nothing) unless
the state is CONNECTED. Otherwise a fresh future is stored for the kind
(overwriting any previous entry), the clamped frame is written, and on write
success the call awaits the correlated response respVal; on write failure the
pending entry for the kind is popped again and no value is returned (the
error is logged, never raised). writeOk tells whether write and drain
succeeded; respVal is the value the reader later resolves the future with. -/
def send_command (status : ServerStatus) (pending : List AxisCommand)
    (cmd : AxisCommand) (data : Int) (writeOk : Bool) (respVal : Option Int) :
    SendOutcome :=
  if status ≠ ServerStatus.CONNECTED then ⟨none, none, pending⟩
  else
    let pending1 := cmd :: pending.filter (fun k => k ≠ cmd)
    if writeOk then ⟨respVal, some (packFrame cmd data), pending1⟩
    else ⟨none, none, pending1.filter (fun k => k ≠ cmd)⟩

/-- The two failure cases the background reader distinguishes: end-of-stream
(IncompleteReadError) and any other I/O error. -/
inductive ReadFailure
  | eof
  | ioError
deriving DecidableEq

/-- A pending future per command kind: none means still unresolved, some r
means resolved with result r (r itself optional, as responses are). -/
abbrev FutureMap := List (AxisCommand × Option (Option Int))

/-- The set_result pass the reader performs on disconnect: every future not
yet done is resolved to no value; already-done futures keep their result. -/
def resolveAll (l : FutureMap) : FutureMap :=
  l.map (fun p =>
    match p.2 with
    | none => (p.1, some (none : Option Int))
    | some r => (p.1, some r))

/-- What the reader leaves behind after handling a read failure. -/
structure ReaderOutcome where
  status : ServerStatus
  keepAliveActive : Bool
  futures : FutureMap
  pendingMap : FutureMap
  callbacksInvoked : List Nat
  readerTerminated : Bool
deriving DecidableEq

/-- The reader task on end-of-stream or on any other I/O error
(the two except branches of _process_responses): the state becomes
DISCONNECTED, the keep-alive task is stopped, every still-pending future is
resolved to no value, the pending map is cleared, every registered disconnect
callback is invoked, and the loop breaks (the reader task terminates). -/
def on_reader_failure (f : ReadFailure) (pending : FutureMap)
    (callbacks : List Nat) : ReaderOutcome :=
  match f with
  | .eof =>
      ⟨ServerStatus.DISCONNECTED, false, resolveAll pending, [], callbacks, true⟩
  | .ioError =>
      ⟨ServerStatus.DISCONNECTED, false, resolveAll pending, [], callbacks, true⟩

/-- Outcome of a connect call: the resulting connection state and whether a
socket-open attempt was made at all. -/
structure ConnectOutcome where
  status : ServerStatus
  attempted : Bool
deriving DecidableEq

/-- The connect entry point: it returns at once, with no state change and no
connection attempt, unless the state is DISCONNECTED; otherwise it attempts
to open the stream, ending CONNECTED on success and ERROR on failure. -/
def connect (status : ServerStatus) (openOk : Bool) : ConnectOutcome :=
  if status ≠ ServerStatus.DISCONNECTED then ⟨status, false⟩
  else if openOk then ⟨ServerStatus.CONNECTED, true⟩
  else ⟨ServerStatus.ERROR, true⟩

/-- The disconnect entry point always leaves the state DISCONNECTED,
whatever it was before. -/
def disconnect (_status : ServerStatus) : ServerStatus :=
  ServerStatus.DISCONNECTED

/-- Python float modulo for the nonnegative arguments used here:
x % y = x - y * floor (x / y). -/
def qmod (x y : ℚ) : ℚ := x - y * (⌊x / y⌋ : ℚ)

/-- Python abs on a rational. -/
def qabs (x : ℚ) : ℚ := if x < 0 then -x else x

/-- Conversion of a raw angle code to degrees performed by get_position:
raw / 65535 * 360, reduced modulo 360. -/
def raw_to_degrees (raw : Int) : ℚ :=
  qmod ((raw : ℚ) / 65535 * 360) 360

/-- The optional-value form of the conversion, as get_position applies it
(a missing raw value converts to nothing). -/
def positionDegrees (raw : Option Int) : Option ℚ :=
  raw.map raw_to_degrees

/-- Last motion command issued on the azimuth axis. -/
inductive AzCmd
  | stop
  | cw
  | ccw
deriving DecidableEq

/-- Last motion command issued on the elevation axis. -/
inductive ElCmd
  | stop
  | up
  | down
deriving DecidableEq

/-- A command the controller issues through the protocol client. -/
inductive Cmd
  | setAzSpeed (r : ℚ)
  | setElSpeed (r : ℚ)
  | moveCW
  | moveCCW
  | moveUp
  | moveDown
  | stopAz
  | stopEl
deriving DecidableEq

/-- The configuration values the loop reads from the ANTENNA settings
section, with the defaults of the source. -/
structure TrackerConfig where
  az_err_th : ℚ
  el_err_th : ℚ
  approach_deg : ℚ
  close_deg : ℚ
  az_speed_far : ℚ
  az_speed_approach : ℚ
  az_speed_close : ℚ
  el_speed_far : ℚ
  el_speed_approach : ℚ
  el_speed_close : ℚ
  move_refresh_interval : ℚ
deriving DecidableEq

/-- The default configuration (thresholds 0.05, approach band 5, close band
1, speeds 500 / 100 / 20 per axis, move refresh interval 1 second). -/
def defaultConfig : TrackerConfig :=
  ⟨1/20, 1/20, 5, 1, 500, 100, 20, 500, 100, 20, 1⟩

/-- The tracked target as the controller reads it: setpoints (optional: the
loop treats a missing one as no target yet) and the derived errors. -/
structure TrackedObject where
  az_set : Option ℚ
  el_set : Option ℚ
  az_error : ℚ
  el_error : ℚ
deriving DecidableEq

/-- The initial TrackedObject: the constructor sets both setpoints to the
number 0.0 and both errors to 0.0. -/
def TrackedObject.init : TrackedObject :=
  ⟨some 0, some 0, 0, 0⟩

/-- The mutable state of the Tracker that the loop body reads and writes:
the tracked target, the two re-apply flags set by mark_speeds_dirty, the
last issued motion command and its timestamp per axis, and the cached
commanded set-rates (antenna.az_setrate / el_setrate, initialised to 0). -/
structure TrackerState where
  tracked : TrackedObject
  must_apply_speeds : Bool
  kickstart_pending : Bool
  last_az_cmd : AzCmd
  last_el_cmd : ElCmd
  last_az_cmd_ts : ℚ
  last_el_cmd_ts : ℚ
  az_setrate : ℚ
  el_setrate : ℚ
deriving DecidableEq

/-- mark_speeds_dirty: sets the two re-apply flags and nothing else. -/
def mark_speeds_dirty (s : TrackerState) : TrackerState :=
  { s with must_apply_speeds := true, kickstart_pending := true }

/-- need_az / need_el of the loop: the error magnitude strictly exceeds the
axis threshold. -/
def needMove (err th : ℚ) : Bool := decide (th < qabs err)

/-- The desired azimuth direction the loop derives for its diagnostic log:
CCW when the error is positive, CW otherwise, STOP when no move is needed. -/
def desiredAz (err th : ℚ) : AzCmd :=
  if needMove err th then (if 0 < err then .ccw else .cw) else .stop

/-- The desired elevation direction: DOWN when the error is positive, UP
otherwise, STOP when no move is needed. -/
def desiredEl (err th : ℚ) : ElCmd :=
  if needMove err th then (if 0 < err then .down else .up) else .stop

/-- Speed-profile selection by error magnitude against the two bands:
above the approach band the far speed, above the close band the approach
speed, otherwise the close speed. -/
def selectRate (farS appS closeS approach close err : ℚ) : ℚ :=
  if approach < qabs err then farS
  else if close < qabs err then appS
  else closeS

/-- The AZ speed block of the loop: select the rate for the current error
and issue a speed command only when the cached commanded rate differs;
returns the issued commands and the new cached rate. -/
def azSpeedStep (cfg : TrackerConfig) (az_error az_setrate : ℚ) :
    List Cmd × ℚ :=
  let rate := selectRate cfg.az_speed_far cfg.az_speed_approach
      cfg.az_speed_close cfg.approach_deg cfg.close_deg az_error
  if az_setrate ≠ rate then ([Cmd.setAzSpeed rate], rate) else ([], az_setrate)

/-- The EL speed block of the loop, mirroring the AZ one. -/
def elSpeedStep (cfg : TrackerConfig) (el_error el_setrate : ℚ) :
    List Cmd × ℚ :=
  let rate := selectRate cfg.el_speed_far cfg.el_speed_approach
      cfg.el_speed_close cfg.approach_deg cfg.close_deg el_error
  if el_setrate ≠ rate then ([Cmd.setElSpeed rate], rate) else ([], el_setrate)

/-- The AZ move block of the loop: when a move is needed, a CCW (positive
error) or CW (otherwise) command, issued only when the direction changed or
the refresh interval elapsed; when no move is needed, a stop command under
the same changed-or-elapsed rule. Returns the issued commands, the new last
command and the new last-command timestamp. -/
def azMoveStep (cfg : TrackerConfig) (need : Bool) (az_error : ℚ)
    (last : AzCmd) (lastTs now : ℚ) : List Cmd × AzCmd × ℚ :=
  if need then
    if 0 < az_error then
      if last ≠ AzCmd.ccw ∨ cfg.move_refresh_interval ≤ now - lastTs then
        ([Cmd.moveCCW], AzCmd.ccw, now)
      else ([], last, lastTs)
    else
      if last ≠ AzCmd.cw ∨ cfg.move_refresh_interval ≤ now - lastTs then
        ([Cmd.moveCW], AzCmd.cw, now)
      else ([], last, lastTs)
  else
    if last ≠ AzCmd.stop ∨ cfg.move_refresh_interval ≤ now - lastTs then
      ([Cmd.stopAz], AzCmd.stop, now)
    else ([], last, lastTs)

/-- The EL move block of the loop: DOWN for positive error, UP otherwise,
with the same throttling rule as the AZ block. -/
def elMoveStep (cfg : TrackerConfig) (need : Bool) (el_error : ℚ)
    (last : ElCmd) (lastTs now : ℚ) : List Cmd × ElCmd × ℚ :=
  if need then
    if 0 < el_error then
      if last ≠ ElCmd.down ∨ cfg.move_refresh_interval ≤ now - lastTs then
        ([Cmd.moveDown], ElCmd.down, now)
      else ([], last, lastTs)
    else
      if last ≠ ElCmd.up ∨ cfg.move_refresh_interval ≤ now - lastTs then
        ([Cmd.moveUp], ElCmd.up, now)
      else ([], last, lastTs)
  else
    if last ≠ ElCmd.stop ∨ cfg.move_refresh_interval ≤ now - lastTs then
      ([Cmd.stopEl], ElCmd.stop, now)
    else ([], last, lastTs)

/-- The valid-input part of one loop iteration, once both setpoints and both
telemetry values are present: compute the errors, derive the need flags, and
either run the four motor blocks (speeds then moves) or, when both axes are
within tolerance, stop both motors unconditionally (_stop_motors, which does
not update the last-command bookkeeping). -/
def tickBody (cfg : TrackerConfig) (s : TrackerState)
    (a_set e_set a_cur e_cur now : ℚ) : TrackerState × List Cmd :=
  let az_error := a_cur - a_set
  let el_error := e_cur - e_set
  let tr := { s.tracked with az_error := az_error, el_error := el_error }
  let need_az := needMove az_error cfg.az_err_th
  let need_el := needMove el_error cfg.el_err_th
  if need_az || need_el then
    let azs := azSpeedStep cfg az_error s.az_setrate
    let els := elSpeedStep cfg el_error s.el_setrate
    let azm := azMoveStep cfg need_az az_error s.last_az_cmd s.last_az_cmd_ts now
    let elm := elMoveStep cfg need_el el_error s.last_el_cmd s.last_el_cmd_ts now
    ({ s with
        tracked := tr,
        az_setrate := azs.2,
        el_setrate := els.2,
        last_az_cmd := azm.2.1,
        last_az_cmd_ts := azm.2.2,
        last_el_cmd := elm.2.1,
        last_el_cmd_ts := elm.2.2 },
      azs.1 ++ els.1 ++ azm.1 ++ elm.1)
  else
    ({ s with tracked := tr }, [Cmd.stopAz, Cmd.stopEl])

/-- One iteration of the tracking loop: when either setpoint is missing, or
either telemetry value is missing, all motor logic is skipped for the tick
(nothing is issued, the state is unchanged); otherwise the loop body runs. -/
def tick (cfg : TrackerConfig) (s : TrackerState)
    (az_cur el_cur : Option ℚ) (now : ℚ) : TrackerState × List Cmd :=
  match s.tracked.az_set, s.tracked.el_set with
  | some a_set, some e_set =>
      match az_cur, el_cur with
      | some a_cur, some e_cur => tickBody cfg s a_set e_set a_cur e_cur now
      | _, _ => (s, [])
  | _, _ => (s, [])

/-- Names of the managed threads that matter to the controller. -/
inductive ThreadName
  | trackingLoop
  | axisCoreLoop
  | other (n : Nat)
deriving DecidableEq

/-- A worker hosted by the thread manager: only its cooperative abort flag
matters to the controller. -/
structure WorkerM where
  abort : Bool
deriving DecidableEq

/-- A QThread as the controller observes it: whether isRunning holds. -/
structure ThreadM where
  isRunningFlag : Bool
deriving DecidableEq

/-- The thread manager state the controller consults: the workers and
threads maps (missing name = no such worker or thread). -/
structure TMState where
  workers : ThreadName → Option WorkerM
  threads : ThreadName → Option ThreadM

/-- stop_thread: when a worker of that name exists, its abort flag is set
(the quit and bounded wait that follow need not have ended the QThread,
so the threads map is left as is). -/
def TMState.stopThread (tm : TMState) (n : ThreadName) : TMState :=
  match tm.workers n with
  | some _ =>
      { tm with
        workers := fun m => if m = n then some ⟨true⟩ else tm.workers m }
  | none => tm

/-- is_running of the Tracker: true only when the worker exists, the QThread
exists and is running, and the worker is not aborted. -/
def is_running (tm : TMState) : Bool :=
  match tm.workers ThreadName.trackingLoop, tm.threads ThreadName.trackingLoop with
  | some w, some t => t.isRunningFlag && !w.abort
  | _, _ => false

/-- _stop_motors: one try block that runs the azimuth-stop call and then the
elevation-stop call; when the azimuth call raises, the except catches it
(logged) and the elevation call is never attempted. azRaises tells whether
the azimuth-stop bridge call raised. The returned list holds the stop
commands whose bridge call was attempted. -/
def stop_motors (azRaises : Bool) : List Cmd :=
  if azRaises then [Cmd.stopAz] else [Cmd.stopAz, Cmd.stopEl]

/-- The Tracker stop entry point: stop the loop thread (requesting
cooperative cancellation), then best-effort stop the motors; a failure there
is caught, so stop always completes. The tracker state s (with whatever
error magnitudes it holds) is not consulted. -/
def tracker_stop (_s : TrackerState) (tm : TMState) (azRaises : Bool) :
    TMState × List Cmd :=
  (tm.stopThread ThreadName.trackingLoop, stop_motors azRaises)

/-! Helper lemmas about the wire codec. -/

theorem codeToCommand_code (c : AxisCommand) : codeToCommand c.code = some c := by
  cases c <;> rfl

theorem clampU16_nonneg (v : Int) : 0 ≤ clampU16 v := by
  unfold clampU16; split_ifs <;> omega

theorem clampU16_le (v : Int) : clampU16 v ≤ 65535 := by
  unfold clampU16; split_ifs <;> omega

theorem clampU16_eq_self (v : Int) (h0 : 0 ≤ v) (h1 : v ≤ 65535) : clampU16 v = v := by
  unfold clampU16; split_ifs <;> omega

theorem parseVal_packFrame (cmd : AxisCommand) (v : Int) :
    parseVal (packFrame cmd v) = clampU16 v := by
  have h0 := clampU16_nonneg v
  have h1 := clampU16_le v
  simp only [packFrame, parseVal, List.getD_cons_zero, List.getD_cons_succ]
  rw [Nat.mod_add_div]
  rw [if_pos (by omega)]
  omega

theorem frameValueField_packFrame (cmd : AxisCommand) (v : Int) :
    frameValueField (packFrame cmd v) = clampU16 v := by
  have h0 := clampU16_nonneg v
  have h1 := clampU16_le v
  simp only [packFrame, frameValueField, List.getD_cons_zero, List.getD_cons_succ]
  rw [Nat.mod_add_div]
  omega

theorem parse_response_packFrame (cmd : AxisCommand) (v : Int) :
    parse_response (packFrame cmd v) = some (cmd, clampU16 v) := by
  have hlen : (packFrame cmd v).length = 8 := rfl
  have hhd : (packFrame cmd v).getD 0 0 = cmd.code := rfl
  rw [parse_response, if_neg (by omega), hhd, codeToCommand_code,
    parseVal_packFrame]

/-! Helper lemmas about the float modulo. -/

theorem qmod_eq_fract (x y : ℚ) (hy : y ≠ 0) :
    qmod x y = y * Int.fract (x / y) := by
  unfold qmod Int.fract
  field_simp

theorem qmod_nonneg (x y : ℚ) (hy : 0 < y) : 0 ≤ qmod x y := by
  rw [qmod_eq_fract x y hy.ne']
  exact mul_nonneg hy.le (Int.fract_nonneg _)

theorem qmod_lt (x y : ℚ) (hy : 0 < y) : qmod x y < y := by
  rw [qmod_eq_fract x y hy.ne']
  calc y * Int.fract (x / y) < y * 1 :=
        mul_lt_mul_of_pos_left (Int.fract_lt_one _) hy
    _ = y := mul_one y

theorem qmod_eq_self (x y : ℚ) (h0 : 0 ≤ x) (hxy : x < y) : qmod x y = x := by
  have hy : 0 < y := lt_of_le_of_lt h0 hxy
  unfold qmod
  rw [Int.floor_eq_zero_iff.mpr
    ⟨div_nonneg h0 hy.le, by rwa [div_lt_one hy]⟩]
  simp

/-! Claim theorems. -/

/-- Claim C8 (confirmed): for every command kind and every value in
[0, 65535], encoding the outgoing frame and decoding its payload bytes 4 to 7
as the response decoder does yields exactly the value (the full decoder also
recovers the command kind); a value below 0 encodes as 0 and a value above
65535 encodes as 65535, and the out-of-range behaviour is clamping, not
reduction modulo 2 to the 16: at 70000 the decoded field is 65535 while
70000 mod 65536 is 4464. -/
theorem C8_value_roundtrip (cmd : AxisCommand) (v : Int) :
    (0 ≤ v → v ≤ 65535 → parseVal (packFrame cmd v) = v) ∧
    (0 ≤ v → v ≤ 65535 → parse_response (packFrame cmd v) = some (cmd, v)) ∧
    (v < 0 → frameValueField (packFrame cmd v) = 0) ∧
    (65535 < v → frameValueField (packFrame cmd v) = 65535) ∧
    parseVal (packFrame AxisCommand.CLOCK 70000) = 65535 ∧
    (70000 : Int) % 65536 = 4464 ∧
    parseVal (packFrame AxisCommand.CLOCK 70000) ≠ (70000 : Int) % 65536 := by
  refine ⟨?_, ?_, ?_, ?_, by decide, by decide, by decide⟩
  · intro h0 h1
    rw [parseVal_packFrame, clampU16_eq_self v h0 h1]
  · intro h0 h1
    rw [parse_response_packFrame, clampU16_eq_self v h0 h1]
  · intro h
    rw [frameValueField_packFrame]
    unfold clampU16
    rw [if_pos h]
  · intro h
    rw [frameValueField_packFrame]
    unfold clampU16
    rw [if_neg (by omega), if_pos h]

/-- Claim C9, counterexample: the raw angle code 65535 does not decode to
about 359.99 degrees; it decodes to exactly 0 degrees, because
(65535 / 65535) * 360 = 360 and 360 mod 360 = 0. -/
theorem C9_counterexample :
    raw_to_degrees 65535 = 0 ∧
    raw_to_degrees 65535 ≠ 35999/100 ∧
    1 ≤ qabs (raw_to_degrees 65535 - 35999/100) := by
  have h : raw_to_degrees 65535 = 0 := by norm_num [raw_to_degrees, qmod]
  refine ⟨h, by rw [h]; norm_num, by rw [h]; norm_num [qabs]⟩

/-- Claim C9 as amended (the conversion formula and the first two sample
codes are as claimed; code 65535 decodes to 0, not to about 359.99): the
position query converts a raw code c to degrees as (c / 65535) * 360 reduced
modulo 360, the result always lies in [0, 360), code 0 decodes to 0, code
32767 decodes to within 0.001 of 179.997, and code 65535 decodes to 0. -/
theorem C9_degrees_amended (c : Int) :
    raw_to_degrees c = qmod ((c : ℚ) / 65535 * 360) 360 ∧
    0 ≤ raw_to_degrees c ∧
    raw_to_degrees c < 360 ∧
    raw_to_degrees 0 = 0 ∧
    qabs (raw_to_degrees 32767 - 179997/1000) < 1/1000 ∧
    raw_to_degrees 65535 = 0 := by
  refine ⟨rfl, qmod_nonneg _ _ (by norm_num), qmod_lt _ _ (by norm_num),
    by norm_num [raw_to_degrees, qmod], ?_, by norm_num [raw_to_degrees, qmod]⟩
  have h : raw_to_degrees 32767 = 786408/4369 := by
    unfold raw_to_degrees
    rw [show ((32767 : Int) : ℚ) / 65535 * 360 = 786408/4369 by norm_num]
    rw [qmod_eq_self _ _ (by norm_num) (by norm_num)]
  rw [h]
  norm_num [qabs]

/-- Claim C10 (confirmed): connect returns at once, with no state change and
no connection attempt, whenever the state is not DISCONNECTED — in
particular in the ERROR state a failed connect leaves behind — so after a
connect failure a further connect does nothing until disconnect has reset
the state to DISCONNECTED, after which connect attempts again. -/
theorem C10_connect_requires_disconnected (st : ServerStatus) (ok ok2 : Bool) :
    (st ≠ ServerStatus.DISCONNECTED → connect st ok = ⟨st, false⟩) ∧
    connect ServerStatus.DISCONNECTED false
      = ⟨ServerStatus.ERROR, true⟩ ∧
    connect ServerStatus.ERROR ok = ⟨ServerStatus.ERROR, false⟩ ∧
    connect (connect ServerStatus.DISCONNECTED false).status ok
      = ⟨ServerStatus.ERROR, false⟩ ∧
    disconnect st = ServerStatus.DISCONNECTED ∧
    (connect (disconnect st) ok2).attempted = true := by
  refine ⟨fun h => by simp [connect, h], by decide, ?_, ?_, rfl, ?_⟩
  · cases ok <;> decide
  · cases ok <;> decide
  · cases ok2 <;> rfl

/-- Claim C5 (confirmed): send_command returns no value and writes nothing
whenever the state is not CONNECTED (leaving the pending map unchanged);
whatever is written is the frame whose value field carries the input clamped
into [0, 65535]; and on a write failure the pending entry for the kind is
removed and no value is returned — the model is a total function, so no
error escapes to the caller. -/
theorem C5_send_command (status : ServerStatus) (pending : List AxisCommand)
    (cmd : AxisCommand) (data : Int) (writeOk : Bool) (respVal : Option Int) :
    (status ≠ ServerStatus.CONNECTED →
      send_command status pending cmd data writeOk respVal
        = ⟨none, none, pending⟩) ∧
    (∀ f, (send_command status pending cmd data writeOk respVal).written
        = some f → f = packFrame cmd data) ∧
    frameValueField (packFrame cmd data) = clampU16 data ∧
    0 ≤ clampU16 data ∧
    clampU16 data ≤ 65535 ∧
    (status = ServerStatus.CONNECTED → writeOk = false →
      (send_command status pending cmd data writeOk respVal).result = none ∧
      cmd ∉ (send_command status pending cmd data writeOk respVal).pending) := by
  refine ⟨fun h => by simp [send_command, h], ?_,
    frameValueField_packFrame cmd data, clampU16_nonneg data, clampU16_le data,
    ?_⟩
  · intro f hf
    by_cases h : status = ServerStatus.CONNECTED
    · subst h
      cases writeOk <;> simp_all [send_command]
    · simp [send_command, h] at hf
  · intro h hw
    subst h hw
    constructor
    · simp [send_command]
    · simp [send_command, List.mem_filter]

/-- Claim C4 (confirmed): when the background reader hits end-of-stream or
any I/O error, the state becomes DISCONNECTED, the keep-alive task is
stopped, every future that was still unresolved is resolved to no value (so
no caller awaiting a response stays blocked), the pending map is emptied,
all registered disconnect callbacks are invoked, and the reader task
terminates. -/
theorem C4_reader_disconnect (f : ReadFailure) (pending : FutureMap)
    (callbacks : List Nat) :
    (on_reader_failure f pending callbacks).status = ServerStatus.DISCONNECTED ∧
    (on_reader_failure f pending callbacks).keepAliveActive = false ∧
    (on_reader_failure f pending callbacks).pendingMap = [] ∧
    (on_reader_failure f pending callbacks).callbacksInvoked = callbacks ∧
    (on_reader_failure f pending callbacks).readerTerminated = true ∧
    (∀ p ∈ (on_reader_failure f pending callbacks).futures,
      p.2 ≠ (none : Option (Option Int))) ∧
    (∀ k : AxisCommand, (k, (none : Option (Option Int))) ∈ pending →
      (k, some (none : Option Int))
        ∈ (on_reader_failure f pending callbacks).futures) ∧
    (on_reader_failure f pending callbacks).futures.length = pending.length := by
  have hres : (on_reader_failure f pending callbacks).futures
      = resolveAll pending := by cases f <;> rfl
  have hrest : on_reader_failure f pending callbacks
      = ⟨ServerStatus.DISCONNECTED, false, resolveAll pending, [], callbacks,
        true⟩ := by cases f <;> rfl
  rw [hrest]
  refine ⟨rfl, rfl, rfl, rfl, rfl, ?_, ?_, by simp [resolveAll]⟩
  · intro p hp
    simp only [resolveAll, List.mem_map] at hp
    obtain ⟨q, hq, hqe⟩ := hp
    cases hqr : q.2 <;> rw [hqr] at hqe <;> simp [← hqe]
  · intro k hk
    have : ((k, (none : Option (Option Int))).1,
        some (((k, (none : Option (Option Int))).2).getD none))
        ∈ resolveAll pending := by
      simp only [resolveAll]
      refine List.mem_map.mpr ⟨(k, none), hk, ?_⟩
      rfl
    simpa using this

/-! Helper lemmas about the controller step functions. -/

theorem setAzSpeed_notMem_elSpeedStep (cfg : TrackerConfig) (e c q : ℚ) :
    Cmd.setAzSpeed q ∉ (elSpeedStep cfg e c).1 := by
  simp only [elSpeedStep]
  split_ifs <;> simp

theorem setAzSpeed_notMem_azMoveStep (cfg : TrackerConfig) (n : Bool)
    (e : ℚ) (l : AzCmd) (ts now q : ℚ) :
    Cmd.setAzSpeed q ∉ (azMoveStep cfg n e l ts now).1 := by
  unfold azMoveStep
  split_ifs <;> simp

theorem setAzSpeed_notMem_elMoveStep (cfg : TrackerConfig) (n : Bool)
    (e : ℚ) (l : ElCmd) (ts now q : ℚ) :
    Cmd.setAzSpeed q ∉ (elMoveStep cfg n e l ts now).1 := by
  unfold elMoveStep
  split_ifs <;> simp

theorem setElSpeed_notMem_azSpeedStep (cfg : TrackerConfig) (e c q : ℚ) :
    Cmd.setElSpeed q ∉ (azSpeedStep cfg e c).1 := by
  simp only [azSpeedStep]
  split_ifs <;> simp

theorem setElSpeed_notMem_azMoveStep (cfg : TrackerConfig) (n : Bool)
    (e : ℚ) (l : AzCmd) (ts now q : ℚ) :
    Cmd.setElSpeed q ∉ (azMoveStep cfg n e l ts now).1 := by
  unfold azMoveStep
  split_ifs <;> simp

theorem setElSpeed_notMem_elMoveStep (cfg : TrackerConfig) (n : Bool)
    (e : ℚ) (l : ElCmd) (ts now q : ℚ) :
    Cmd.setElSpeed q ∉ (elMoveStep cfg n e l ts now).1 := by
  unfold elMoveStep
  split_ifs <;> simp

theorem setAzSpeed_mem_azSpeedStep (cfg : TrackerConfig) (e c q : ℚ) :
    Cmd.setAzSpeed q ∈ (azSpeedStep cfg e c).1 ↔
      (q = selectRate cfg.az_speed_far cfg.az_speed_approach cfg.az_speed_close
          cfg.approach_deg cfg.close_deg e ∧ c ≠ q) := by
  simp only [azSpeedStep]
  split_ifs with h
  · constructor
    · intro hq
      simp at hq
      exact ⟨hq, hq ▸ h⟩
    · intro hq
      simp [hq.1]
  · push_neg at h
    constructor
    · intro hq
      simp at hq
    · intro hq
      exact absurd (h.trans hq.1.symm) hq.2

theorem setElSpeed_mem_elSpeedStep (cfg : TrackerConfig) (e c q : ℚ) :
    Cmd.setElSpeed q ∈ (elSpeedStep cfg e c).1 ↔
      (q = selectRate cfg.el_speed_far cfg.el_speed_approach cfg.el_speed_close
          cfg.approach_deg cfg.close_deg e ∧ c ≠ q) := by
  simp only [elSpeedStep]
  split_ifs with h
  · constructor
    · intro hq
      simp at hq
      exact ⟨hq, hq ▸ h⟩
    · intro hq
      simp [hq.1]
  · push_neg at h
    constructor
    · intro hq
      simp at hq
    · intro hq
      exact absurd (h.trans hq.1.symm) hq.2

theorem tick_motor_cmds (cfg : TrackerConfig) (aset eset eA eE : ℚ)
    (m k : Bool) (lac : AzCmd) (lec : ElCmd) (lat lts asr esr : ℚ)
    (a_cur e_cur now : ℚ)
    (h : (needMove (a_cur - aset) cfg.az_err_th
        || needMove (e_cur - eset) cfg.el_err_th) = true) :
    (tick cfg ⟨⟨some aset, some eset, eA, eE⟩, m, k, lac, lec, lat, lts, asr, esr⟩
        (some a_cur) (some e_cur) now).2
      = (azSpeedStep cfg (a_cur - aset) asr).1
        ++ (elSpeedStep cfg (e_cur - eset) esr).1
        ++ (azMoveStep cfg (needMove (a_cur - aset) cfg.az_err_th)
              (a_cur - aset) lac lat now).1
        ++ (elMoveStep cfg (needMove (e_cur - eset) cfg.el_err_th)
              (e_cur - eset) lec lts now).1 := by
  show (tickBody cfg _ aset eset a_cur e_cur now).2 = _
  unfold tickBody
  rw [if_pos h]

/-- Claim C7 (confirmed): on a tick that runs motor logic, the speed profile
per axis is selected by error magnitude against the two bands (far above the
approach band, approach above the close band, close otherwise; with the
defaults 5 and 1, magnitude 6 selects far, 2 selects approach, 0.5 selects
close), and a speed command is issued exactly when the newly selected rate
differs from the cached last commanded rate for that axis. -/
theorem C7_speed_bands (cfg : TrackerConfig)
    (farS appS closeS approach close err : ℚ)
    (aset eset eA eE lat lts asr esr a_cur e_cur now r : ℚ)
    (m k : Bool) (lac : AzCmd) (lec : ElCmd) :
    (approach < qabs err →
      selectRate farS appS closeS approach close err = farS) ∧
    (qabs err ≤ approach → close < qabs err →
      selectRate farS appS closeS approach close err = appS) ∧
    (qabs err ≤ approach → qabs err ≤ close →
      selectRate farS appS closeS approach close err = closeS) ∧
    (Cmd.setAzSpeed r ∈ (azSpeedStep cfg err asr).1 ↔
      (r = selectRate cfg.az_speed_far cfg.az_speed_approach cfg.az_speed_close
          cfg.approach_deg cfg.close_deg err ∧ asr ≠ r)) ∧
    (Cmd.setElSpeed r ∈ (elSpeedStep cfg err esr).1 ↔
      (r = selectRate cfg.el_speed_far cfg.el_speed_approach cfg.el_speed_close
          cfg.approach_deg cfg.close_deg err ∧ esr ≠ r)) ∧
    ((needMove (a_cur - aset) cfg.az_err_th
        || needMove (e_cur - eset) cfg.el_err_th) = true →
      (Cmd.setAzSpeed r ∈ (tick cfg
          ⟨⟨some aset, some eset, eA, eE⟩, m, k, lac, lec, lat, lts, asr, esr⟩
          (some a_cur) (some e_cur) now).2 ↔
        Cmd.setAzSpeed r ∈ (azSpeedStep cfg (a_cur - aset) asr).1) ∧
      (Cmd.setElSpeed r ∈ (tick cfg
          ⟨⟨some aset, some eset, eA, eE⟩, m, k, lac, lec, lat, lts, asr, esr⟩
          (some a_cur) (some e_cur) now).2 ↔
        Cmd.setElSpeed r ∈ (elSpeedStep cfg (e_cur - eset) esr).1)) ∧
    selectRate 500 100 20 5 1 6 = 500 ∧
    selectRate 500 100 20 5 1 2 = 100 ∧
    selectRate 500 100 20 5 1 (1/2) = 20 := by
  refine ⟨?_, ?_, ?_, setAzSpeed_mem_azSpeedStep cfg err asr r,
    setElSpeed_mem_elSpeedStep cfg err esr r, ?_,
    by norm_num [selectRate, qabs], by norm_num [selectRate, qabs],
    by norm_num [selectRate, qabs]⟩
  · intro h
    simp [selectRate, h]
  · intro h1 h2
    rw [selectRate, if_neg (not_lt.mpr h1), if_pos h2]
  · intro h1 h2
    rw [selectRate, if_neg (not_lt.mpr h1), if_neg (not_lt.mpr h2)]
  · intro h
    rw [tick_motor_cmds cfg aset eset eA eE m k lac lec lat lts asr esr
      a_cur e_cur now h]
    constructor
    · simp [List.mem_append, setAzSpeed_notMem_elSpeedStep,
        setAzSpeed_notMem_azMoveStep, setAzSpeed_notMem_elMoveStep]
    · simp [List.mem_append, setElSpeed_notMem_azSpeedStep,
        setElSpeed_notMem_azMoveStep, setElSpeed_notMem_elMoveStep]

/-- Claim C6, counterexample: with telemetry azimuth 10, setpoint azimuth
10.06 and threshold 0.05, the loop's error is 10 - 10.06 = -0.06, a move is
needed, and the desired direction the code derives is CW, not the CCW the
claim asserts. -/
theorem C6_counterexample :
    needMove ((10 : ℚ) - 1006/100) (1/20) = true ∧
    desiredAz ((10 : ℚ) - 1006/100) (1/20) = AzCmd.cw ∧
    desiredAz ((10 : ℚ) - 1006/100) (1/20) ≠ AzCmd.ccw := by
  have h : desiredAz ((10 : ℚ) - 1006/100) (1/20) = AzCmd.cw := by
    norm_num [desiredAz, needMove, qabs]
  exact ⟨by norm_num [needMove, qabs], h, by rw [h]; decide⟩

/-- Claim C6 as amended (the direction rules are as claimed; in the worked
example with setpoint 10.06 the desired direction is CW, because the error
10 - 10.06 = -0.06 is negative): a move is needed on an axis exactly when
the error magnitude exceeds that axis threshold; positive azimuth error
gives CCW, negative gives CW; positive elevation error gives DOWN, negative
gives UP; the move blocks only ever issue the command matching the error
sign; and with setpoint 9.90 the error +0.10 gives CCW. -/
theorem C6_directions_amended (cfg : TrackerConfig) (err th lastTs now : ℚ)
    (lastA : AzCmd) (lastE : ElCmd) :
    (needMove err th = true ↔ th < qabs err) ∧
    (th < qabs err → 0 < err → desiredAz err th = AzCmd.ccw) ∧
    (th < qabs err → err < 0 → desiredAz err th = AzCmd.cw) ∧
    (th < qabs err → 0 < err → desiredEl err th = ElCmd.down) ∧
    (th < qabs err → err < 0 → desiredEl err th = ElCmd.up) ∧
    (Cmd.moveCCW ∈ (azMoveStep cfg true err lastA lastTs now).1 → 0 < err) ∧
    (Cmd.moveCW ∈ (azMoveStep cfg true err lastA lastTs now).1 → err ≤ 0) ∧
    (Cmd.moveDown ∈ (elMoveStep cfg true err lastE lastTs now).1 → 0 < err) ∧
    (Cmd.moveUp ∈ (elMoveStep cfg true err lastE lastTs now).1 → err ≤ 0) ∧
    (needMove ((10 : ℚ) - 1006/100) (1/20) = true ∧
      desiredAz ((10 : ℚ) - 1006/100) (1/20) = AzCmd.cw) ∧
    (needMove ((10 : ℚ) - 99/10) (1/20) = true ∧
      desiredAz ((10 : ℚ) - 99/10) (1/20) = AzCmd.ccw) := by
  refine ⟨by simp [needMove], ?_, ?_, ?_, ?_, ?_, ?_, ?_, ?_,
    ⟨by norm_num [needMove, qabs], by norm_num [desiredAz, needMove, qabs]⟩,
    ⟨by norm_num [needMove, qabs], by norm_num [desiredAz, needMove, qabs]⟩⟩
  · intro h1 h2
    simp [desiredAz, needMove, h1, h2]
  · intro h1 h2
    simp [desiredAz, needMove, h1, not_lt.mpr h2.le]
  · intro h1 h2
    simp [desiredEl, needMove, h1, h2]
  · intro h1 h2
    simp [desiredEl, needMove, h1, not_lt.mpr h2.le]
  · intro hmem
    by_cases h : 0 < err
    · exact h
    · unfold azMoveStep at hmem
      rw [if_pos rfl, if_neg h] at hmem
      split_ifs at hmem <;> simp at hmem
  · intro hmem
    by_cases h : 0 < err
    · unfold azMoveStep at hmem
      rw [if_pos rfl, if_pos h] at hmem
      split_ifs at hmem <;> simp at hmem
    · exact not_lt.mp h
  · intro hmem
    by_cases h : 0 < err
    · exact h
    · unfold elMoveStep at hmem
      rw [if_pos rfl, if_neg h] at hmem
      split_ifs at hmem <;> simp at hmem
  · intro hmem
    by_cases h : 0 < err
    · unfold elMoveStep at hmem
      rw [if_pos rfl, if_pos h] at hmem
      split_ifs at hmem <;> simp at hmem
    · exact not_lt.mp h

/-- Claim C3, counterexample: at controller start the tracked target's
setpoints are not absent — the constructor initialises both to the number
0.0, not to null. -/
theorem C3_counterexample :
    TrackedObject.init.az_set = some 0 ∧
    TrackedObject.init.el_set = some 0 ∧
    TrackedObject.init.az_set ≠ (none : Option ℚ) ∧
    TrackedObject.init.el_set ≠ (none : Option ℚ) := by
  refine ⟨rfl, rfl, by simp [TrackedObject.init], by simp [TrackedObject.init]⟩

/-- Claim C3 as amended (the skip rule is as claimed; the initial setpoints
are 0.0, not absent): the TrackedObject constructor sets both setpoints to
0.0, and on every tick in which either setpoint is absent, or either
telemetry value is absent, the controller skips all motor logic — no command
is issued and the state is unchanged. -/
theorem C3_skip_amended (azset elset eA eE : ℚ) (oset : Option ℚ)
    (m k : Bool) (lac : AzCmd) (lec : ElCmd) (lat lts asr esr : ℚ)
    (cfg : TrackerConfig) (az_cur el_cur : Option ℚ) (now : ℚ) :
    TrackedObject.init.az_set = some 0 ∧
    TrackedObject.init.el_set = some 0 ∧
    tick cfg ⟨⟨none, oset, eA, eE⟩, m, k, lac, lec, lat, lts, asr, esr⟩
        az_cur el_cur now
      = (⟨⟨none, oset, eA, eE⟩, m, k, lac, lec, lat, lts, asr, esr⟩, []) ∧
    tick cfg ⟨⟨some azset, none, eA, eE⟩, m, k, lac, lec, lat, lts, asr, esr⟩
        az_cur el_cur now
      = (⟨⟨some azset, none, eA, eE⟩, m, k, lac, lec, lat, lts, asr, esr⟩, []) ∧
    tick cfg ⟨⟨some azset, some elset, eA, eE⟩, m, k, lac, lec, lat, lts,
        asr, esr⟩ none el_cur now
      = (⟨⟨some azset, some elset, eA, eE⟩, m, k, lac, lec, lat, lts,
          asr, esr⟩, []) ∧
    tick cfg ⟨⟨some azset, some elset, eA, eE⟩, m, k, lac, lec, lat, lts,
        asr, esr⟩ az_cur none now
      = (⟨⟨some azset, some elset, eA, eE⟩, m, k, lac, lec, lat, lts,
          asr, esr⟩, []) := by
  refine ⟨rfl, rfl, rfl, rfl, ?_, ?_⟩
  · cases el_cur <;> rfl
  · cases az_cur <;> rfl

/-- Claim C2 (code bug): mark_speeds_dirty sets the two re-apply flags, but
the loop body never reads them — with both flags freshly set and the cached
rates already equal to the newly selected rates (500 on both axes at error
magnitude 6), the next tick issues the move commands but no speed command at
all, contradicting the docstring of mark_speeds_dirty (re-apply AZ and EL
speeds on the next cycle). -/
theorem C2_mark_speeds_dirty_ignored :
    (mark_speeds_dirty ⟨⟨some 4, some 4, 0, 0⟩, false, false, .stop, .stop,
        0, 0, 500, 500⟩).must_apply_speeds = true ∧
    (mark_speeds_dirty ⟨⟨some 4, some 4, 0, 0⟩, false, false, .stop, .stop,
        0, 0, 500, 500⟩).kickstart_pending = true ∧
    (azSpeedStep defaultConfig 6 500).1 = [] ∧
    (elSpeedStep defaultConfig 6 500).1 = [] ∧
    (tick defaultConfig
        (mark_speeds_dirty ⟨⟨some 4, some 4, 0, 0⟩, false, false, .stop, .stop,
          0, 0, 500, 500⟩)
        (some 10) (some 10) 5).2 = [Cmd.moveCCW, Cmd.moveDown] := by
  refine ⟨rfl, rfl, by norm_num [azSpeedStep, selectRate, qabs, defaultConfig],
    by norm_num [elSpeedStep, selectRate, qabs, defaultConfig], ?_⟩
  norm_num [tick, tickBody, mark_speeds_dirty, needMove, qabs, azSpeedStep,
    elSpeedStep, azMoveStep, elMoveStep, selectRate, defaultConfig]

/-- Claim C1, counterexample: when the bridge call issuing the azimuth stop
raises (for instance because the persistent event loop is gone during
shutdown), Stop() never attempts the elevation stop — only the azimuth stop
is issued, against the claim that both commands are always issued. -/
theorem C1_counterexample :
    (tracker_stop ⟨⟨some 0, some 0, 21, 13⟩, false, false, .stop, .stop,
        0, 0, 0, 0⟩
      ⟨fun n => if n = ThreadName.trackingLoop then some ⟨false⟩ else none,
       fun n => if n = ThreadName.trackingLoop then some ⟨true⟩ else none⟩
      true).2 = [Cmd.stopAz] ∧
    Cmd.stopEl ∉
      (tracker_stop ⟨⟨some 0, some 0, 21, 13⟩, false, false, .stop, .stop,
          0, 0, 0, 0⟩
        ⟨fun n => if n = ThreadName.trackingLoop then some ⟨false⟩ else none,
         fun n => if n = ThreadName.trackingLoop then some ⟨true⟩ else none⟩
        true).2 ∧
    is_running
      (tracker_stop ⟨⟨some 0, some 0, 21, 13⟩, false, false, .stop, .stop,
          0, 0, 0, 0⟩
        ⟨fun n => if n = ThreadName.trackingLoop then some ⟨false⟩ else none,
         fun n => if n = ThreadName.trackingLoop then some ⟨true⟩ else none⟩
        true).1 = false := by
  refine ⟨rfl, by simp [tracker_stop, stop_motors], ?_⟩
  rfl

/-- Claim C1 as amended (cancellation and the safety stop are otherwise as
claimed): Stop() requests cancellation and then, whatever error magnitudes
the tracker state holds, best-effort attempts the azimuth stop; the
elevation stop is attempted too provided the azimuth bridge call did not
raise (a raise is caught and logged, so Stop() still completes); and
IsRunning() is false immediately after Stop() in every case. -/
theorem C1_stop_amended (s : TrackerState) (tm : TMState) (azRaises : Bool) :
    is_running (tracker_stop s tm azRaises).1 = false ∧
    Cmd.stopAz ∈ (tracker_stop s tm azRaises).2 ∧
    (azRaises = false →
      (tracker_stop s tm azRaises).2 = [Cmd.stopAz, Cmd.stopEl]) ∧
    (tracker_stop s tm azRaises).2 = stop_motors azRaises := by
  refine ⟨?_, ?_, ?_, rfl⟩
  · show is_running (tm.stopThread ThreadName.trackingLoop) = false
    cases hw : tm.workers ThreadName.trackingLoop with
    | none =>
        cases ht : tm.threads ThreadName.trackingLoop <;>
          simp [is_running, TMState.stopThread, hw, ht]
    | some w =>
        cases ht : tm.threads ThreadName.trackingLoop <;>
          simp [is_running, TMState.stopThread, hw, ht]
  · cases azRaises <;> simp [tracker_stop, stop_motors]
  · intro h
    subst h
    rfl

end Antrack
